import Mathlib

/-!
Verification of the mail-watcher / work-item-reporter program (`src/main.py`).

The embedding below models, from the source:
  * Python substring containment `pat in hay` (`pyInStr`) and `str.lower`
    (`pyLower`, ASCII lowering as in `Char.toLower`);
  * the board configuration dictionary `TABLERO_CONFIG["mapeo_columnas_estados"]`
    (`mapeoColumnasEstados`) and Python `dict.get` (`dictGet`);
  * the subject classification performed inline in `process_mail`
    (lines 193-211): `classify`, `classifyTitle`, `classifyColumn`;
  * the work-item-type choice `"Issue" if "Issue" in available_types else
    available_types[0]` (`chooseWorkItemType`; the `available_types[0]`
    IndexError on an empty list is modeled as `none`);
  * `get_work_item_types` response handling (`getWorkItemTypes`, where the
    HTTP response is abstracted as `Option (Nat × List String)`, `none`
    standing for a raised transport exception);
  * the state-resolution block of `create_work_item` (lines 119-125,
    `resolveState`; the `available_states[0]` IndexError on an empty list is
    modeled as `none`);
  * the creation-response handling of `create_work_item` (lines 136-152,
    `createWorkItemResult`, where `none` stands for a caught transport
    exception);
  * the observable per-message effect trace of `process_mail`
    (`processMail` = receipt log, mark-seen, types query, then the
    branch-dependent actions `processActions`).
-/

/-- ASCII prefix test on code-point lists, used to model Python substring
containment. -/
def charsIsPrefixOf : List Char → List Char → Bool
  | [], _ => true
  | _ :: _, [] => false
  | a :: as, b :: bs => a == b && charsIsPrefixOf as bs

/-- Substring containment on code-point lists: `containsSub pat hay` is true
iff `pat` occurs contiguously inside `hay` (true for the empty pattern, as in
Python). -/
def containsSub (pat : List Char) : List Char → Bool
  | [] => charsIsPrefixOf pat []
  | c :: t => charsIsPrefixOf pat (c :: t) || containsSub pat t

/-- Model of Python `pat in hay` for strings (substring containment). -/
def pyInStr (pat hay : String) : Bool :=
  containsSub pat.data hay.data

/-- Model of Python `str.lower()` (per-code-point lowering; the tokens the
program tests for are ASCII). -/
def pyLower (s : String) : String :=
  ⟨s.data.map Char.toLower⟩

/-- Model of Python `dict.get(key)` on an association list (the configuration
dictionaries are literals without duplicate keys). -/
def dictGet (m : List (String × String)) (k : String) : Option String :=
  match m with
  | [] => none
  | (k', v) :: rest => if k' = k then some v else dictGet rest k

/-- `TABLERO_CONFIG["mapeo_columnas_estados"]` (main.py lines 35-39). -/
def mapeoColumnasEstados : List (String × String) :=
  [("Bugs creados", "To Do"), ("En revision", "Doing"), ("Ejecucion existosa", "Done")]

/-- `TABLERO_CONFIG["asignacion_correos"]` (main.py lines 42-45). -/
def asignacionCorreos : List (String × String) :=
  [("failed", "Bugs creados"), ("succeeded", "Ejecucion existosa")]

/-- `list(TABLERO_CONFIG["mapeo_columnas_estados"].keys())[0]`
(main.py line 208); the dictionary literal is nonempty so the `headD`
default is never used. -/
def defaultColumn : String :=
  (mapeoColumnasEstados.map Prod.fst).headD ""

/-- The event category of a decoded subject (spec §4.1). -/
inductive Category where
  | Failure
  | Success
  | Unclassified
deriving DecidableEq, Repr

/-- The classification branch taken by `process_mail` on a decoded subject:
`"failed" in decoded_subject.lower()` is tested first (line 193), then
`"succeeded" in decoded_subject.lower()` (line 199), else the fall-through
branch (line 205). -/
def classify (s : String) : Category :=
  if pyInStr "failed" (pyLower s) then Category.Failure
  else if pyInStr "succeeded" (pyLower s) then Category.Success
  else Category.Unclassified

/-- The `title` assigned in the branch taken (main.py lines 197, 203, 209). -/
def classifyTitle (s : String) : String :=
  match classify s with
  | Category.Failure => "❌ Error en pipeline: " ++ s
  | Category.Success => "✅ Pipeline exitoso: " ++ s
  | Category.Unclassified => "📋 Notificación pipeline: " ++ s

/-- The `target_column` assigned in the branch taken (main.py lines 196, 202,
208). -/
def classifyColumn (s : String) : String :=
  match classify s with
  | Category.Failure => "Bugs creados"
  | Category.Success => "Ejecucion existosa"
  | Category.Unclassified => defaultColumn

/-- `"Issue" if "Issue" in available_types else available_types[0]`
(main.py lines 195, 201, 207); `none` models the IndexError raised when the
list is empty and lacks `"Issue"`. -/
def chooseWorkItemType (availableTypes : List String) : Option String :=
  if "Issue" ∈ availableTypes then some "Issue" else availableTypes.head?

/-- The fallback list returned by `get_work_item_types` on a non-200 response
or an exception (main.py lines 76, 79). -/
def defaultWorkItemTypes : List String := ["Issue", "Task"]

/-- Response handling of `get_work_item_types` (main.py lines 57-79): the
argument abstracts the HTTP exchange as `some (statusCode, parsedNames)`, or
`none` for a raised exception; a 200 response yields the parsed names, any
other outcome yields the defaults. -/
def getWorkItemTypes (resp : Option (Nat × List String)) : List String :=
  match resp with
  | none => defaultWorkItemTypes
  | some (status, names) => if status = 200 then names else defaultWorkItemTypes

/-- The state-resolution block of `create_work_item` (main.py lines 119-125):
desired state is `columnStateMap.get(targetColumn, "To Do")`; if it is not
among the available states, fall back to `"To Do"` when available, else to
`available_states[0]` (`none` models the IndexError on an empty list). -/
def resolveState (columnStateMap : List (String × String)) (targetColumn : String)
    (availableStates : List String) : Option String :=
  let targetState := (dictGet columnStateMap targetColumn).getD "To Do"
  if targetState ∈ availableStates then some targetState
  else if "To Do" ∈ availableStates then some "To Do"
  else availableStates.head?

/-- Abstraction of the creation HTTP response: its status code and the
optional `id` field of its JSON body. -/
structure HttpResponse where
  statusCode : Nat
  jsonId : Option String
deriving DecidableEq, Repr

/-- The outcome `create_work_item` reports: whether it returned `True`, and
the item identifier it extracted (`response.json().get('id', 'N/A')`) when it
did. -/
structure WorkItemResult where
  success : Bool
  itemId : Option String
deriving DecidableEq, Repr

/-- Response handling of `create_work_item` (main.py lines 136-152): `none`
abstracts a raised transport exception (caught, `False` returned); a response
with status in `[200, 201]` reports success with the extracted identifier;
any other status reports failure. -/
def createWorkItemResult (resp : Option HttpResponse) : WorkItemResult :=
  match resp with
  | none => { success := false, itemId := none }
  | some r =>
    if r.statusCode = 200 ∨ r.statusCode = 201 then
      { success := true, itemId := some (r.jsonId.getD "N/A") }
    else
      { success := false, itemId := none }

/-- Observable per-message effects of `process_mail`. -/
inductive Effect where
  | logMsg (s : String)
  | markSeen
  | queryTypes
  | createItem (title workItemType targetColumn : String)
deriving DecidableEq, Repr

/-- Whether an effect is a work-item creation call. -/
def isCreateItem : Effect → Bool
  | Effect.createItem _ _ _ => true
  | _ => false

/-- Whether an effect is the work-item-types query. -/
def isQueryTypes : Effect → Bool
  | Effect.queryTypes => true
  | _ => false

/-- The branch-dependent tail of the `process_mail` effect trace
(main.py lines 193-214): when the type choice raises (empty list without
`"Issue"`), the branch produces no further observable effect before the
per-message handler catches the exception; otherwise an unclassified subject
only logs, and a classified one issues the creation call. -/
def processActions (s : String) (ts : List String) : List Effect :=
  match chooseWorkItemType ts with
  | none => []
  | some t =>
    match classify s with
    | Category.Unclassified =>
        [Effect.logMsg ("📨 Correo procesado (sin acción específica): " ++ s)]
    | _ => [Effect.createItem (classifyTitle s) t (classifyColumn s)]

/-- The effect trace of `process_mail` on a fetched message with decoded
subject `s`, when the types query yields `ts` (main.py lines 185-214): the
receipt log (line 185), the mark-seen store (line 188), the types query
(line 191), then the classification-dependent actions. -/
def processMail (s : String) (ts : List String) : List Effect :=
  Effect.logMsg ("📧 Procesando correo: " ++ s) ::
  Effect.markSeen ::
  Effect.queryTypes ::
  processActions s ts

/-- C1 (counterexample): the claim's exact title `"Error in pipeline: " ++
subject` fails on the code: for the subject `"Build failed"`, which contains
the token `"failed"` case-insensitively, the title produced is
`"❌ Error en pipeline: Build failed"`, not `"Error in pipeline: Build
failed"`. -/
theorem classify_failed_title_not_english :
    pyInStr "failed" (pyLower "Build failed") = true ∧
    classifyTitle "Build failed" ≠ "Error in pipeline: " ++ "Build failed" := by
  decide

/-- C1 (amended): every decoded subject containing the token `"failed"`
case-insensitively classifies as Failure, with title exactly
`"❌ Error en pipeline: "` followed by the original decoded subject, and
target column the configured failure column `"Bugs creados"`. -/
theorem classify_failed_spec (s : String)
    (h : pyInStr "failed" (pyLower s) = true) :
    classify s = Category.Failure ∧
    classifyTitle s = "❌ Error en pipeline: " ++ s ∧
    classifyColumn s = "Bugs creados" := by
  simp [classify, classifyTitle, classifyColumn, h]

/-- C1 (witness): the amended theorem at the concrete subject
`"Build #42 failed in Release pipeline"`. -/
theorem classify_failed_spec_witness :
    classify "Build #42 failed in Release pipeline" = Category.Failure ∧
    classifyTitle "Build #42 failed in Release pipeline" =
      "❌ Error en pipeline: " ++ "Build #42 failed in Release pipeline" ∧
    classifyColumn "Build #42 failed in Release pipeline" = "Bugs creados" :=
  classify_failed_spec "Build #42 failed in Release pipeline" (by decide)

/-- C2 (counterexample): the claim's exact title `"Pipeline succeeded: " ++
subject` fails on the code: for the subject `"Build succeeded"`, which
contains `"succeeded"` and not `"failed"`, the title produced is
`"✅ Pipeline exitoso: Build succeeded"`. -/
theorem classify_succeeded_title_not_english :
    pyInStr "succeeded" (pyLower "Build succeeded") = true ∧
    pyInStr "failed" (pyLower "Build succeeded") = false ∧
    classifyTitle "Build succeeded" ≠ "Pipeline succeeded: " ++ "Build succeeded" := by
  decide

/-- C2 (amended): every decoded subject containing `"succeeded"`
case-insensitively and not containing `"failed"` classifies as Success, with
title exactly `"✅ Pipeline exitoso: "` followed by the original decoded
subject, and target column the configured success column
`"Ejecucion existosa"`. -/
theorem classify_succeeded_spec (s : String)
    (hs : pyInStr "succeeded" (pyLower s) = true)
    (hf : pyInStr "failed" (pyLower s) = false) :
    classify s = Category.Success ∧
    classifyTitle s = "✅ Pipeline exitoso: " ++ s ∧
    classifyColumn s = "Ejecucion existosa" := by
  simp [classify, classifyTitle, classifyColumn, hs, hf]

/-- C2 (witness): the amended theorem at the concrete subject
`"Build #43 succeeded"`. -/
theorem classify_succeeded_spec_witness :
    classify "Build #43 succeeded" = Category.Success ∧
    classifyTitle "Build #43 succeeded" = "✅ Pipeline exitoso: " ++ "Build #43 succeeded" ∧
    classifyColumn "Build #43 succeeded" = "Ejecucion existosa" :=
  classify_succeeded_spec "Build #43 succeeded" (by decide) (by decide)

/-- C3: a subject containing both tokens (any case) classifies as Failure:
the `"failed"` test is performed first, so it takes precedence over the
`"succeeded"` test. -/
theorem classify_both_tokens_failure (s : String)
    (hf : pyInStr "failed" (pyLower s) = true)
    (_hs : pyInStr "succeeded" (pyLower s) = true) :
    classify s = Category.Failure := by
  simp [classify, hf]

/-- C3 (witness): precedence at the concrete subject
`"Job SUCCEEDED then FAILED"`. -/
theorem classify_both_tokens_failure_witness :
    classify "Job SUCCEEDED then FAILED" = Category.Failure :=
  classify_both_tokens_failure "Job SUCCEEDED then FAILED" (by decide) (by decide)

/-- C4: `resolveState` follows exactly the claimed algorithm: the desired
state is the map's entry for the target column, defaulting to `"To Do"` when
the column is absent; when the desired state is available it is returned;
otherwise `"To Do"` is returned when available, else the first element of
the available-states list in its given order. -/
theorem resolveState_algorithm (m : List (String × String)) (col : String)
    (avail : List String) :
    (dictGet m col = none → (dictGet m col).getD "To Do" = "To Do") ∧
    ((dictGet m col).getD "To Do" ∈ avail →
      resolveState m col avail = some ((dictGet m col).getD "To Do")) ∧
    ((dictGet m col).getD "To Do" ∉ avail → "To Do" ∈ avail →
      resolveState m col avail = some "To Do") ∧
    ((dictGet m col).getD "To Do" ∉ avail → "To Do" ∉ avail →
      ∀ h : avail ≠ [], resolveState m col avail = some (avail.head h)) := by
  refine ⟨fun h => by simp [h], fun h => by simp [resolveState, h],
    fun h h' => by simp [resolveState, h, h'], fun h h' hne => ?_⟩
  rcases avail with _ | ⟨a, rest⟩
  · exact absurd rfl hne
  · simp [resolveState, h, h']

/-- C4 (witness): the algorithm at concrete inputs: the configured map sends
`"Bugs creados"` to `"To Do"`, which is absent from `["Doing", "Done"]`, as
is `"To Do"` itself, so the first available state `"Doing"` is returned. -/
theorem resolveState_algorithm_witness :
    resolveState mapeoColumnasEstados "Bugs creados" ["Doing", "Done"] =
      some ((["Doing", "Done"] : List String).head (by decide)) :=
  (resolveState_algorithm mapeoColumnasEstados "Bugs creados" ["Doing", "Done"]).2.2.2
    (by decide) (by decide) (by decide)

/-- C5 (counterexample): `resolveState` is not total over every combination:
with an empty available-states list the fallback `available_states[0]`
fails (modeled as `none`), so no element of `availableStates` is returned. -/
theorem resolveState_empty_fails :
    resolveState mapeoColumnasEstados "Bugs creados" [] = none := by
  decide

/-- C5 (amended): for every map, target column, and NONEMPTY available-states
list — including a target column absent from the map and lists without
`"To Do"` — `resolveState` succeeds and its result is an element of the
available-states list. -/
theorem resolveState_mem_avail (m : List (String × String)) (col : String)
    (avail : List String) (hne : avail ≠ []) :
    ∃ st, resolveState m col avail = some st ∧ st ∈ avail := by
  rcases avail with _ | ⟨a, rest⟩
  · exact absurd rfl hne
  · dsimp only [resolveState]
    split
    · exact ⟨_, rfl, by assumption⟩
    · split
      · exact ⟨"To Do", rfl, by assumption⟩
      · exact ⟨a, rfl, List.mem_cons_self a rest⟩

/-- C5 (witness): the amended theorem at a map missing the column and an
available-states list missing `"To Do"`. -/
theorem resolveState_mem_avail_witness :
    ∃ st, resolveState [] "No such column" ["Blocked", "Done"] = some st ∧
      st ∈ (["Blocked", "Done"] : List String) :=
  resolveState_mem_avail [] "No such column" ["Blocked", "Done"] (by decide)

/-- C6 (counterexample): success is not reported for every 2xx status: the
code tests `status_code in [200, 201]`, so a 204 response — a 2xx status —
is reported as failure. -/
theorem createWorkItem_204_reported_failure :
    200 ≤ 204 ∧ 204 < 300 ∧
    (createWorkItemResult (some ⟨204, some "17"⟩)).success = false := by
  decide

/-- C6 (amended): `create_work_item` reports success, with the identifier
extracted from the response body (defaulting to `"N/A"` when absent), exactly
when the response status is 200 or 201; for every other status it reports
failure with no id, and a transport-level failure (a raised exception,
modeled by `none`) is also reported as failure with no id rather than
propagated. -/
theorem createWorkItem_success_iff (resp : Option HttpResponse) :
    ((createWorkItemResult resp).success = true ↔
      ∃ r, resp = some r ∧ (r.statusCode = 200 ∨ r.statusCode = 201)) ∧
    (∀ r, resp = some r → (createWorkItemResult resp).success = true →
      (createWorkItemResult resp).itemId = some (r.jsonId.getD "N/A")) ∧
    ((createWorkItemResult resp).success = false →
      (createWorkItemResult resp).itemId = none) ∧
    (createWorkItemResult none = { success := false, itemId := none }) := by
  rcases resp with _ | r
  · refine ⟨by simp [createWorkItemResult], ?_, fun _ => rfl, rfl⟩
    intro r hr
    cases hr
  · by_cases h : r.statusCode = 200 ∨ r.statusCode = 201
    · refine ⟨?_, ?_, ?_, rfl⟩
      · simp [createWorkItemResult, h]
      · intro r' hr' _
        cases hr'
        simp [createWorkItemResult, h]
      · intro hfail
        simp [createWorkItemResult, h] at hfail
    · refine ⟨?_, ?_, ?_, rfl⟩
      · simp [createWorkItemResult, h]
      · intro r' hr' hsucc
        cases hr'
        simp [createWorkItemResult, h] at hsucc
      · intro _
        simp [createWorkItemResult, h]

/-- C6 (witness): at a 201 response carrying id `"42"`, success is reported
with id `"42"`; at `none`, failure is reported. -/
theorem createWorkItem_success_iff_witness :
    (createWorkItemResult (some ⟨201, some "42"⟩)).itemId =
      some ((some "42").getD "N/A") ∧
    createWorkItemResult none = { success := false, itemId := none } :=
  ⟨(createWorkItem_success_iff (some ⟨201, some "42"⟩)).2.1 ⟨201, some "42"⟩ rfl
    (by decide),
   (createWorkItem_success_iff none).2.2.2⟩

/-- C7: for a message whose decoded subject contains neither token, the
effect trace of `process_mail` holds no work-item creation call, while the
message is still marked seen and its receipt is still logged. -/
theorem processMail_unclassified_no_create (s : String) (ts : List String)
    (h : classify s = Category.Unclassified) :
    (∀ t ty c, Effect.createItem t ty c ∉ processMail s ts) ∧
    Effect.markSeen ∈ processMail s ts ∧
    Effect.logMsg ("📧 Procesando correo: " ++ s) ∈ processMail s ts := by
  rcases hct : chooseWorkItemType ts with _ | t
  · simp [processMail, processActions, hct]
  · simp [processMail, processActions, hct, h]

/-- C7 (witness): at the subject `"Weekly digest"` the message is marked
seen and its receipt logged, with no creation call in the trace. -/
theorem processMail_unclassified_no_create_witness :
    (∀ t ty c, Effect.createItem t ty c ∉ processMail "Weekly digest" ["Issue", "Task"]) ∧
    Effect.markSeen ∈ processMail "Weekly digest" ["Issue", "Task"] ∧
    Effect.logMsg ("📧 Procesando correo: " ++ "Weekly digest") ∈
      processMail "Weekly digest" ["Issue", "Task"] :=
  processMail_unclassified_no_create "Weekly digest" ["Issue", "Task"] (by decide)

/-- C8: in the per-message effect trace, the mark-seen effect always precedes
any creation call: the trace splits into a prefix containing the mark-seen
store and no creation effect, followed by the branch-dependent actions, and
every creation effect of the trace lies in that later part. -/
theorem processMail_markSeen_before_create (s : String) (ts : List String) :
    ∃ pre post, processMail s ts = pre ++ post ∧
      Effect.markSeen ∈ pre ∧
      (∀ e ∈ pre, isCreateItem e = false) ∧
      (∀ e ∈ processMail s ts, isCreateItem e = true → e ∈ post) := by
  refine ⟨[Effect.logMsg ("📧 Procesando correo: " ++ s), Effect.markSeen,
    Effect.queryTypes], processActions s ts, rfl, by simp, ?_, ?_⟩
  · intro e he
    fin_cases he <;> rfl
  · intro e he hc
    simp only [processMail, List.mem_cons] at he
    rcases he with rfl | rfl | rfl | hmem
    · simp [isCreateItem] at hc
    · simp [isCreateItem] at hc
    · simp [isCreateItem] at hc
    · exact hmem

/-- C9: the work-item type submitted to the creator is `"Issue"` whenever
`"Issue"` is among the available types, otherwise the first element of the
list; every creation effect in a trace carries exactly the type so chosen;
and when the types lookup fails (non-200 status or exception) the defaults
`["Issue", "Task"]` are used, on which the chosen type is `"Issue"`. -/
theorem chooseWorkItemType_spec (ts : List String) :
    ("Issue" ∈ ts → chooseWorkItemType ts = some "Issue") ∧
    ("Issue" ∉ ts → chooseWorkItemType ts = ts.head?) ∧
    (∀ s t ty c, Effect.createItem t ty c ∈ processMail s ts →
      chooseWorkItemType ts = some ty) ∧
    (getWorkItemTypes none = defaultWorkItemTypes) ∧
    (∀ st names, st ≠ 200 → getWorkItemTypes (some (st, names)) = defaultWorkItemTypes) ∧
    (chooseWorkItemType defaultWorkItemTypes = some "Issue") := by
  refine ⟨fun h => by simp [chooseWorkItemType, h],
    fun h => by simp [chooseWorkItemType, h], ?_, rfl,
    fun st names h => by simp [getWorkItemTypes, h], by decide⟩
  intro s t ty c hmem
  rcases hct : chooseWorkItemType ts with _ | t'
  · simp [processMail, processActions, hct] at hmem
  · rcases hcl : classify s with _ | _ | _ <;>
      simp [processMail, processActions, hct, hcl] at hmem <;>
      exact (congrArg some hmem.2.1).symm

/-- C9 (witness): with available types `["Bug", "Task"]`, which lack
`"Issue"`, the chosen type is the first element. -/
theorem chooseWorkItemType_spec_witness :
    chooseWorkItemType ["Bug", "Task"] = (["Bug", "Task"] : List String).head? :=
  (chooseWorkItemType_spec ["Bug", "Task"]).2.1 (by decide)

/-- C10: every fetched message issues the work-item-types query exactly once,
at position 2 of its effect trace — before any classification-dependent
effect — even when the subject is unclassified, in which case the trace
still holds that one external read but no creation call. -/
theorem processMail_queryTypes_always (s : String) (ts : List String) :
    ((processMail s ts).filter isQueryTypes).length = 1 ∧
    (processMail s ts).get? 2 = some Effect.queryTypes ∧
    (classify s = Category.Unclassified →
      ∀ t ty c, Effect.createItem t ty c ∉ processMail s ts) := by
  refine ⟨?_, rfl, fun h t ty c =>
    (processMail_unclassified_no_create s ts h).1 t ty c⟩
  rcases hct : chooseWorkItemType ts with _ | t
  · simp [processMail, processActions, hct, List.filter_cons, isQueryTypes]
  · rcases hcl : classify s with _ | _ | _ <;>
      simp [processMail, processActions, hct, hcl, List.filter_cons, isQueryTypes,
        isCreateItem]

/-- C10 (witness): at the unclassified subject `"Weekly digest"`, the trace
holds the types query once and no creation call. -/
theorem processMail_queryTypes_always_witness :
    ((processMail "Weekly digest" ["Issue", "Task"]).filter isQueryTypes).length = 1 ∧
    (processMail "Weekly digest" ["Issue", "Task"]).get? 2 = some Effect.queryTypes :=
  ⟨(processMail_queryTypes_always "Weekly digest" ["Issue", "Task"]).1,
   (processMail_queryTypes_always "Weekly digest" ["Issue", "Task"]).2.1⟩
